import Mathlib

/-
Verification of the marginfi-mcp-server accounting client.

The client (src/lib/marginfi-client.ts, re-exported through src/services)
is a mock: every read operation fabricates data with createMockBank /
createMockMarginfiAccount, and every mutating operation (deposit,
withdraw, borrow, repay, liquidate) returns a freshly fabricated mock
account, ignoring the amount and bank-address arguments.

Embedding conventions:
- PublicKey is modelled as an opaque string Address; Keypair.generate()
  (a fresh random key) is modelled by an explicit generator g : Nat → Address
  together with an index telling which fresh key of the call is drawn.
- BigNumber (arbitrary-precision decimal) is modelled as ℚ; every constant
  in the source is an exact decimal (1.05 = 21/20, 0.05 = 1/20, 0.1 = 1/10).
- An operation that the spec describes as able to fail with a typed error
  is given the return type Except MarginfiError MarginfiAccount; the mock
  code never takes an error path, so every operation returns Except.ok.
-/

namespace Marginfi

/-- Addresses (Solana PublicKey values) are opaque identifiers. -/
abbrev Address : Type := String

/-- The fixed system-program address the client passes as the mock
authority of every account returned by a mutating operation. -/
def systemProgram : Address := "11111111111111111111111111111111"

/-- Bank entity, field for field from src/lib/types.ts. -/
structure Bank where
  address : Address
  mint : Address
  tokenSymbol : String
  tokenName : String
  tokenDecimals : Nat
  assetShareValue : ℚ
  liabilityShareValue : ℚ
  depositLimit : ℚ
  borrowLimit : ℚ
  depositRate : ℚ
  borrowRate : ℚ
  totalAssets : ℚ
  totalLiabilities : ℚ
  price : ℚ
  isActive : Bool
deriving Repr, DecidableEq

/-- Per-bank account balance, field for field from src/lib/types.ts. -/
structure AccountBalance where
  bankAddress : Address
  tokenSymbol : String
  tokenName : String
  tokenDecimals : Nat
  assetShares : ℚ
  liabilityShares : ℚ
  assetAmount : ℚ
  liabilityAmount : ℚ
  price : ℚ
deriving Repr, DecidableEq

/-- MarginFi account, field for field from src/lib/types.ts. -/
structure MarginfiAccount where
  address : Address
  authority : Address
  balances : List AccountBalance
  healthFactor : ℚ
  equity : ℚ
  assets : ℚ
  liabilities : ℚ
deriving Repr, DecidableEq

/-- Typed error taxonomy of the specification (section 7). The mock code
never constructs any of these. -/
inductive MarginfiError where
  | NotFound
  | InvalidInput
  | InsufficientBalance
  | MarginRequirementViolation
  | NotLiquidatable
  | InsufficientCollateral
  | InvalidAmount
  | DivisionError
  | StaleData
deriving Repr, DecidableEq

/-- createMockBank from MarginfiClient: the optional address argument is
used when present, otherwise a fresh generated key (g k); the mint is a
second fresh key (g (k+1)). All numeric fields are the hardcoded
constants of the source; the price is 1 for USDC, 20 for SOL and 30000
for any other symbol. -/
def createMockBank (g : Nat → Address) (k : Nat) (symbol : String)
    (address : Option Address) : Bank :=
  let bankAddress := address.getD (g k)
  { address := bankAddress
    mint := g (k + 1)
    tokenSymbol := symbol
    tokenName := symbol ++ " Token"
    tokenDecimals := 6
    assetShareValue := 21/20
    liabilityShareValue := 21/20
    depositLimit := 1000000
    borrowLimit := 500000
    depositRate := 1/20
    borrowRate := 1/10
    totalAssets := 500000
    totalLiabilities := 250000
    price := if symbol = "USDC" then 1 else if symbol = "SOL" then 20 else 30000
    isActive := true }

/-- createMockMarginfiAccount from MarginfiClient: the optional address is
used when present, otherwise a fresh key (g 0); two mock banks are built
(consuming fresh keys g 1 … g 4); the two balances, assets = 1050 and
liabilities = 210 are hardcoded; equity = assets - liabilities and
healthFactor = equity / liabilities * 100 are computed. -/
def createMockMarginfiAccount (g : Nat → Address) (authority : Address)
    (address : Option Address) : MarginfiAccount :=
  let accountAddress := address.getD (g 0)
  let usdcBank := createMockBank g 1 "USDC" none
  let solBank := createMockBank g 3 "SOL" none
  let balances : List AccountBalance :=
    [ { bankAddress := usdcBank.address
        tokenSymbol := "USDC"
        tokenName := "USDC Token"
        tokenDecimals := 6
        assetShares := 1000
        liabilityShares := 0
        assetAmount := 1050
        liabilityAmount := 0
        price := 1 },
      { bankAddress := solBank.address
        tokenSymbol := "SOL"
        tokenName := "SOL Token"
        tokenDecimals := 9
        assetShares := 0
        liabilityShares := 10
        assetAmount := 0
        liabilityAmount := 21/2
        price := 20 } ]
  let assets : ℚ := 1050
  let liabilities : ℚ := 210
  let equity := assets - liabilities
  let healthFactor := equity / liabilities * 100
  { address := accountAddress
    authority := authority
    balances := balances
    healthFactor := healthFactor
    equity := equity
    assets := assets
    liabilities := liabilities }

/-- getAllBanks: three mock banks, USDC, SOL, BTC, in that order. -/
def getAllBanks (g : Nat → Address) : List Bank :=
  [ createMockBank g 0 "USDC" none
  , createMockBank g 2 "SOL" none
  , createMockBank g 4 "BTC" none ]

/-- getBankByAddress: always a mock USDC bank carrying the requested
address; the mock never returns null. -/
def getBankByAddress (g : Nat → Address) (address : Address) : Option Bank :=
  some (createMockBank g 0 "USDC" (some address))

/-- getBankBySymbol: always a mock bank for the requested symbol. -/
def getBankBySymbol (g : Nat → Address) (symbol : String) : Option Bank :=
  some (createMockBank g 0 symbol none)

/-- getMarginfiAccountsForAuthority: a single mock account for the
requested authority. -/
def getMarginfiAccountsForAuthority (g : Nat → Address)
    (authority : Address) : List MarginfiAccount :=
  [createMockMarginfiAccount g authority none]

/-- getMarginfiAccountByAddress: always a mock account with the system
program as authority and the requested address; never null. -/
def getMarginfiAccountByAddress (g : Nat → Address)
    (address : Address) : Option MarginfiAccount :=
  some (createMockMarginfiAccount g systemProgram (some address))

/-- createMarginfiAccount: a mock account for the requested authority. -/
def createMarginfiAccount (g : Nat → Address)
    (authority : Address) : MarginfiAccount :=
  createMockMarginfiAccount g authority none

/-- deposit: ignores bankAddress and amount and returns the mock account
for accountAddress; no failure path exists in the code. -/
def deposit (g : Nat → Address) (accountAddress bankAddress : Address)
    (amount : ℚ) : Except MarginfiError MarginfiAccount :=
  Except.ok (createMockMarginfiAccount g systemProgram (some accountAddress))

/-- withdraw: ignores bankAddress and amount and returns the mock account
for accountAddress; no failure path exists in the code. -/
def withdraw (g : Nat → Address) (accountAddress bankAddress : Address)
    (amount : ℚ) : Except MarginfiError MarginfiAccount :=
  Except.ok (createMockMarginfiAccount g systemProgram (some accountAddress))

/-- borrow: ignores bankAddress and amount and returns the mock account
for accountAddress; no margin check and no failure path exist in the code. -/
def borrow (g : Nat → Address) (accountAddress bankAddress : Address)
    (amount : ℚ) : Except MarginfiError MarginfiAccount :=
  Except.ok (createMockMarginfiAccount g systemProgram (some accountAddress))

/-- repay: ignores bankAddress and amount and returns the mock account
for accountAddress; no failure path exists in the code. -/
def repay (g : Nat → Address) (accountAddress bankAddress : Address)
    (amount : ℚ) : Except MarginfiError MarginfiAccount :=
  Except.ok (createMockMarginfiAccount g systemProgram (some accountAddress))

/-- liquidate: ignores every argument except the liquidator address and
returns the mock account for it; no precondition is checked and no
failure path exists in the code. -/
def liquidate (g : Nat → Address)
    (liquidatorAccountAddress liquidateeAccountAddress : Address)
    (assetBankAddress liabilityBankAddress : Address)
    (amount : ℚ) : Except MarginfiError MarginfiAccount :=
  Except.ok (createMockMarginfiAccount g systemProgram (some liquidatorAccountAddress))

/-- Health-factor formula of createMockMarginfiAccount, abstracted over
the two inputs: (assets - liabilities) / liabilities * 100. -/
def healthFactorOf (assets liabilities : ℚ) : ℚ :=
  (assets - liabilities) / liabilities * 100

/-- Modelled from the spec: the repository contains no ExchangeRateModel
implementation; section 4.1 defines
sharesToAmount(shares, shareValue) = shares * shareValue. -/
def sharesToAmount (shares shareValue : ℚ) : ℚ :=
  shares * shareValue

/-- Modelled from the spec: the repository contains no ExchangeRateModel
implementation; section 4.1 defines
amountToShares(amount, shareValue) = amount / shareValue, failing with
DivisionError when shareValue == 0. -/
def amountToShares (amount shareValue : ℚ) : Except MarginfiError ℚ :=
  if shareValue = 0 then Except.error MarginfiError.DivisionError
  else Except.ok (amount / shareValue)

/-- Numeric fields of one balance: assetShares, liabilityShares,
assetAmount, liabilityAmount, price. -/
def balanceNumbers (b : AccountBalance) : ℚ × ℚ × ℚ × ℚ × ℚ :=
  (b.assetShares, b.liabilityShares, b.assetAmount, b.liabilityAmount, b.price)

/-- Numeric fields of an account: the numeric fields of each balance plus
assets, liabilities, equity, healthFactor. -/
def accountNumbers (m : MarginfiAccount) :
    List (ℚ × ℚ × ℚ × ℚ × ℚ) × ℚ × ℚ × ℚ × ℚ :=
  (m.balances.map balanceNumbers, m.assets, m.liabilities, m.equity, m.healthFactor)

/-- Every mutating operation returns Except.ok of the mock account built
for the (first) account address, with the system program as authority. -/
def mutatingOpsReturnMock (g : Nat → Address) (a b c d : Address) (amt : ℚ) : Prop :=
  deposit g a b amt = Except.ok (createMockMarginfiAccount g systemProgram (some a)) ∧
  withdraw g a b amt = Except.ok (createMockMarginfiAccount g systemProgram (some a)) ∧
  borrow g a b amt = Except.ok (createMockMarginfiAccount g systemProgram (some a)) ∧
  repay g a b amt = Except.ok (createMockMarginfiAccount g systemProgram (some a)) ∧
  liquidate g a b c d amt = Except.ok (createMockMarginfiAccount g systemProgram (some a))

/-- Fixed generator used to instantiate counterexamples. -/
def gen0 : Nat → Address := fun n => toString n

/-- Fixed concrete address used to instantiate counterexamples. -/
def addr0 : Address := "A"

/-- C1: every account the client returns comes from
createMockMarginfiAccount, whose healthFactor equals
(assets - liabilities) / liabilities * 100; on the built-in balances
(USDC assetShareValue 1.05, assetShares 1000, price 1; SOL
liabilityShares 10, liabilityShareValue 1.05, price 20) this gives
assetAmount 1050, liabilityAmount 10.5, assets 1050, liabilities 210,
equity 840 and healthFactor 400, all exact. -/
theorem C1_healthFactor_formula (g : Nat → Address) (authority : Address)
    (address : Option Address) (a b c d : Address) (amt : ℚ) :
    (createMockMarginfiAccount g authority address).healthFactor
      = ((createMockMarginfiAccount g authority address).assets
          - (createMockMarginfiAccount g authority address).liabilities)
        / (createMockMarginfiAccount g authority address).liabilities * 100 ∧
    (createMockMarginfiAccount g authority address).balances.map
      AccountBalance.assetShares = [1000, 0] ∧
    (createMockMarginfiAccount g authority address).balances.map
      AccountBalance.liabilityShares = [0, 10] ∧
    (createMockMarginfiAccount g authority address).balances.map
      AccountBalance.assetAmount = [1050, 0] ∧
    (createMockMarginfiAccount g authority address).balances.map
      AccountBalance.liabilityAmount = [0, 21/2] ∧
    (createMockMarginfiAccount g authority address).balances.map
      AccountBalance.price = [1, 20] ∧
    (createMockBank g 1 "USDC" none).assetShareValue = 21/20 ∧
    (1050 : ℚ) = 1000 * (createMockBank g 1 "USDC" none).assetShareValue ∧
    (createMockBank g 3 "SOL" none).liabilityShareValue = 21/20 ∧
    (21/2 : ℚ) = 10 * (createMockBank g 3 "SOL" none).liabilityShareValue ∧
    (createMockMarginfiAccount g authority address).assets = 1050 ∧
    (createMockMarginfiAccount g authority address).liabilities = 210 ∧
    (createMockMarginfiAccount g authority address).equity = 840 ∧
    (createMockMarginfiAccount g authority address).healthFactor = 400 ∧
    createMarginfiAccount g authority = createMockMarginfiAccount g authority none ∧
    getMarginfiAccountsForAuthority g authority
      = [createMockMarginfiAccount g authority none] ∧
    getMarginfiAccountByAddress g a
      = some (createMockMarginfiAccount g systemProgram (some a)) ∧
    mutatingOpsReturnMock g a b c d amt := by
  refine ⟨rfl, rfl, rfl, rfl, rfl, rfl, rfl, by norm_num [createMockBank],
    rfl, by norm_num [createMockBank], rfl, rfl, ?_, ?_, rfl, rfl, rfl,
    rfl, rfl, rfl, rfl, rfl⟩
  · show (1050 : ℚ) - 210 = 840
    norm_num
  · show ((1050 : ℚ) - 210) / 210 * 100 = 400
    norm_num

/-- C2: every account produced by any client operation satisfies
equity = assets - liabilities exactly, in exact rational arithmetic. -/
theorem C2_equity_invariant (g : Nat → Address) (authority a b c d : Address)
    (address : Option Address) (amt : ℚ) :
    (createMockMarginfiAccount g authority address).equity
      = (createMockMarginfiAccount g authority address).assets
        - (createMockMarginfiAccount g authority address).liabilities ∧
    createMarginfiAccount g authority = createMockMarginfiAccount g authority none ∧
    getMarginfiAccountsForAuthority g authority
      = [createMockMarginfiAccount g authority none] ∧
    getMarginfiAccountByAddress g a
      = some (createMockMarginfiAccount g systemProgram (some a)) ∧
    mutatingOpsReturnMock g a b c d amt :=
  ⟨rfl, rfl, rfl, rfl, rfl, rfl, rfl, rfl, rfl⟩

/-- C3 counterexample: with repay amount 0 (≤ 0, so the claim demands an
InvalidAmount failure), liquidate nevertheless succeeds and returns the
mock liquidator account. -/
theorem C3_counterexample_liquidate_zero_amount_succeeds :
    liquidate gen0 addr0 addr0 addr0 addr0 0
      = Except.ok (createMockMarginfiAccount gen0 systemProgram (some addr0)) :=
  rfl

/-- C3 amended: liquidate checks no precondition at all: for every
liquidator, liquidatee, bank pair and amount (including zero and
negative amounts) it succeeds, returning the mock account for the
liquidator address; no NotLiquidatable, InsufficientCollateral or
InvalidAmount error is ever produced. -/
theorem C3_liquidate_always_succeeds (g : Nat → Address)
    (liquidator liquidatee assetBank liabilityBank : Address) (amt : ℚ) :
    liquidate g liquidator liquidatee assetBank liabilityBank amt
      = Except.ok (createMockMarginfiAccount g systemProgram (some liquidator)) :=
  rfl

/-- C4 counterexample: with the Initial threshold configured at 500, the
post-transition Initial health factor of the returned account is 400,
below the threshold, yet borrow succeeds instead of failing with
MarginRequirementViolation. -/
theorem C4_counterexample_borrow_below_threshold_succeeds :
    borrow gen0 addr0 addr0 1000000000
      = Except.ok (createMockMarginfiAccount gen0 systemProgram (some addr0)) ∧
    (createMockMarginfiAccount gen0 systemProgram (some addr0)).healthFactor = 400 ∧
    (400 : ℚ) < 500 := by
  refine ⟨rfl, ?_, by norm_num⟩
  show ((1050 : ℚ) - 210) / 210 * 100 = 400
  norm_num

/-- C4 amended: borrow performs no margin-requirement check: for every
account, bank and amount it succeeds, returning the fixed mock account
(healthFactor 400, built-in balances) independent of any prior state;
it never fails with MarginRequirementViolation. -/
theorem C4_borrow_always_succeeds (g : Nat → Address)
    (acct bank : Address) (amt : ℚ) :
    borrow g acct bank amt
      = Except.ok (createMockMarginfiAccount g systemProgram (some acct)) ∧
    (createMockMarginfiAccount g systemProgram (some acct)).healthFactor = 400 := by
  refine ⟨rfl, ?_⟩
  show ((1050 : ℚ) - 210) / 210 * 100 = 400
  norm_num

/-- C5 counterexample: withdrawing 1000000000 tokens from the mock
account, which holds only 1000 USDC asset shares (1050 tokens) and 0 SOL
asset shares, would drive assetShares negative, so the claim demands an
InsufficientBalance failure; the code succeeds and returns the fixed
mock account instead. -/
theorem C5_counterexample_overdraw_succeeds :
    withdraw gen0 addr0 addr0 1000000000
      = Except.ok (createMockMarginfiAccount gen0 systemProgram (some addr0)) ∧
    (createMockMarginfiAccount gen0 systemProgram (some addr0)).balances.map
      AccountBalance.assetShares = [1000, 0] :=
  ⟨rfl, rfl⟩

/-- C5 amended: deposit, withdraw, borrow and repay never fail with
InsufficientBalance: each succeeds for every amount and bank address and
returns the fixed mock account, whose balances are the built-in
constants; no share delta is ever applied and no bank totals change. -/
theorem C5_transitions_always_succeed (g : Nat → Address)
    (acct bank : Address) (amt : ℚ) :
    deposit g acct bank amt
      = Except.ok (createMockMarginfiAccount g systemProgram (some acct)) ∧
    withdraw g acct bank amt
      = Except.ok (createMockMarginfiAccount g systemProgram (some acct)) ∧
    borrow g acct bank amt
      = Except.ok (createMockMarginfiAccount g systemProgram (some acct)) ∧
    repay g acct bank amt
      = Except.ok (createMockMarginfiAccount g systemProgram (some acct)) :=
  ⟨rfl, rfl, rfl, rfl⟩

/-- C6 counterexample: at assets = 0 the health factor is the constant
-100, so it is not strictly decreasing in liabilities: with liabilities
1 < 2 the claim demands healthFactorOf 0 1 > healthFactorOf 0 2, but the
two are equal. -/
theorem C6_counterexample_zero_assets :
    (0 : ℚ) < 1 ∧ (1 : ℚ) < 2 ∧
    ¬ (healthFactorOf 0 1 > healthFactorOf 0 2) := by
  refine ⟨by norm_num, by norm_num, ?_⟩
  show ¬ ((0 - 2 : ℚ) / 2 * 100 < (0 - 1) / 1 * 100)
  norm_num

/-- C6 amended: for positive assets the health factor
(assets - liabilities) / liabilities * 100 is strictly decreasing in
liabilities, and for positive liabilities it is strictly increasing in
assets (the latter for all assets). -/
theorem C6_healthFactor_monotone (A A1 A2 L L1 L2 : ℚ)
    (hA : 0 < A) (h1 : 0 < L1) (h12 : L1 < L2) (hL : 0 < L) (hAA : A1 < A2) :
    healthFactorOf A L2 < healthFactorOf A L1 ∧
    healthFactorOf A1 L < healthFactorOf A2 L := by
  have h2 : 0 < L2 := h1.trans h12
  constructor
  · show (A - L2) / L2 * 100 < (A - L1) / L1 * 100
    rw [div_mul_eq_mul_div, div_mul_eq_mul_div, div_lt_div_iff₀ h2 h1]
    nlinarith [mul_pos hA (sub_pos.mpr h12)]
  · show (A1 - L) / L * 100 < (A2 - L) / L * 100
    rw [div_mul_eq_mul_div, div_mul_eq_mul_div, div_lt_div_iff₀ hL hL]
    nlinarith [mul_pos (sub_pos.mpr hAA) hL]

/-- C6 witness: the amended monotonicity at A = 1, L1 = 1, L2 = 2 and
A1 = 0, A2 = 1, L = 1. -/
theorem C6_healthFactor_monotone_witness :
    healthFactorOf 1 2 < healthFactorOf 1 1 ∧
    healthFactorOf 0 1 < healthFactorOf 1 1 :=
  C6_healthFactor_monotone 1 0 1 1 1 2 (by norm_num) (by norm_num)
    (by norm_num) (by norm_num) (by norm_num)

/-- C7: sharesToAmount multiplies, amountToShares divides and fails with
DivisionError exactly when the share value is zero, and for every
positive share value the round trip
amountToShares (sharesToAmount s v) v returns s exactly. -/
theorem C7_exchange_rate_round_trip (s a v : ℚ) (hv : 0 < v) :
    sharesToAmount s v = s * v ∧
    amountToShares a v = Except.ok (a / v) ∧
    amountToShares a 0 = Except.error MarginfiError.DivisionError ∧
    amountToShares (sharesToAmount s v) v = Except.ok s := by
  have hvne : v ≠ 0 := ne_of_gt hv
  refine ⟨rfl, ?_, rfl, ?_⟩
  · rw [amountToShares, if_neg hvne]
  · rw [sharesToAmount, amountToShares, if_neg hvne]
    congr 1
    field_simp

/-- C7 witness: the round trip at s = 3, a = 5, v = 2. -/
theorem C7_exchange_rate_round_trip_witness :
    sharesToAmount 3 2 = 3 * 2 ∧
    amountToShares 5 2 = Except.ok (5 / 2) ∧
    amountToShares 5 0 = Except.error MarginfiError.DivisionError ∧
    amountToShares (sharesToAmount 3 2) 2 = Except.ok 3 :=
  C7_exchange_rate_round_trip 3 5 2 (by norm_num)

/-- C8: two runs of the same mutating operation on the same account
address, with arbitrary (possibly different) amounts, bank addresses and
generated keys, return accounts with identical numeric fields: each
balance's assetShares, liabilityShares, assetAmount, liabilityAmount and
price, and the account's assets, liabilities, equity and healthFactor. -/
theorem C8_amount_and_banks_do_not_influence_result
    (g1 g2 : Nat → Address) (acct b1 b2 c1 c2 d1 d2 : Address) (A B : ℚ) :
    (deposit g1 acct b1 A).map accountNumbers
      = (deposit g2 acct b2 B).map accountNumbers ∧
    (withdraw g1 acct b1 A).map accountNumbers
      = (withdraw g2 acct b2 B).map accountNumbers ∧
    (borrow g1 acct b1 A).map accountNumbers
      = (borrow g2 acct b2 B).map accountNumbers ∧
    (repay g1 acct b1 A).map accountNumbers
      = (repay g2 acct b2 B).map accountNumbers ∧
    (liquidate g1 acct c1 b1 d1 A).map accountNumbers
      = (liquidate g2 acct c2 b2 d2 B).map accountNumbers :=
  ⟨rfl, rfl, rfl, rfl, rfl⟩

/-- C9: getBankByAddress never reports a bank as absent: for every
address it returns some mock USDC bank whose address field is the
requested address and whose tokenSymbol is USDC. -/
theorem C9_getBankByAddress_never_none (g : Nat → Address) (a : Address) :
    getBankByAddress g a = some (createMockBank g 0 "USDC" (some a)) ∧
    (createMockBank g 0 "USDC" (some a)).address = a ∧
    (createMockBank g 0 "USDC" (some a)).tokenSymbol = "USDC" :=
  ⟨rfl, rfl, rfl⟩

/-- C10: getAllBanks returns exactly the three mock banks USDC, SOL, BTC
in that order, and every bank the client constructs has isActive true,
tokenDecimals 6, assetShareValue and liabilityShareValue 1.05 (= 21/20),
and price 1 for USDC, 20 for SOL and 30000 for any other symbol. -/
theorem C10_getAllBanks_and_bank_constants (g : Nat → Address) (k : Nat)
    (symbol : String) (address : Option Address) :
    getAllBanks g = [ createMockBank g 0 "USDC" none
                    , createMockBank g 2 "SOL" none
                    , createMockBank g 4 "BTC" none ] ∧
    (getAllBanks g).map Bank.tokenSymbol = ["USDC", "SOL", "BTC"] ∧
    (getAllBanks g).length = 3 ∧
    (createMockBank g k symbol address).isActive = true ∧
    (createMockBank g k symbol address).tokenDecimals = 6 ∧
    (createMockBank g k symbol address).assetShareValue = 21/20 ∧
    (createMockBank g k symbol address).liabilityShareValue = 21/20 ∧
    (createMockBank g k symbol address).price
      = (if symbol = "USDC" then 1 else if symbol = "SOL" then 20 else 30000) :=
  ⟨rfl, rfl, rfl, rfl, rfl, rfl, rfl, rfl⟩

end Marginfi
